import Mathlib

/-!
Shallow embedding of the state-management and geometry code of the
Verdant Vision 3D planner (src/js/app.js, src/js/p5-sketch.js and the
three-scene module, whose fuller copy is src/unnamed/part_001).
Coordinates in feet are modelled as rationals; JS objects become
structures, nullable or possibly-absent fields become Option, and the
falsy-coalescing idiom written a || b in JS becomes an explicit helper.
Purely presentational concerns (DOM, rendering, colors, alerts) are not
modelled; user-facing error branches are modelled as distinct outcomes.
-/

namespace Verdant

/-- A 2D point in feet, the shape of the point objects used throughout the app. -/
structure Point where
  x : ℚ
  y : ℚ
deriving DecidableEq, Repr

/-- Default point returned by out-of-range list indexing; all indices used below are in range. -/
def origin : Point := ⟨0, 0⟩

/-- Array indexing points[i] of the JS code. -/
def getP (l : List Point) (i : Nat) : Point := l.getD i origin

/-- The loop body of app.js getPolygonSignedArea at index i: p1.x * p2.y - p2.x * p1.y
for the cyclically adjacent pair (points[i], points[(i+1) % n]). -/
def shoelaceTerm (points : List Point) (i : Nat) : ℚ :=
  (getP points i).x * (getP points ((i + 1) % points.length)).y
    - (getP points ((i + 1) % points.length)).x * (getP points i).y

/-- app.js getPolygonSignedArea: shoelace sum over cyclically adjacent vertex pairs, halved. -/
def getPolygonSignedArea (points : List Point) : ℚ :=
  (∑ i in Finset.range points.length, shoelaceTerm points i) / 2

/-- app.js ensureWindingOrder.  Both call sites pass the counter-clockwise target,
so the clockwise branch of the JS function is dead there and the target argument
is specialised away: lists shorter than 3 are returned as given, and a polygon of
negative signed area is reversed. -/
def ensureWindingOrder (points : List Point) : List Point :=
  if points.length < 3 then points
  else if getPolygonSignedArea points < 0 then points.reverse
  else points

/-- The orientation determinant computed inside p5-sketch.js segmentsIntersect. -/
def orientVal (p q r : Point) : ℚ :=
  (q.y - p.y) * (r.x - q.x) - (q.x - p.x) * (r.y - q.y)

/-- p5-sketch.js orientation: 0 collinear, 1 clockwise, 2 counter-clockwise. -/
def orientation (p q r : Point) : Nat :=
  if orientVal p q r = 0 then 0
  else if orientVal p q r > 0 then 1
  else 2

/-- p5-sketch.js onSegment: bounding-box membership used for the collinear cases. -/
def onSegment (p q r : Point) : Bool :=
  decide (q.x ≤ max p.x r.x ∧ min p.x r.x ≤ q.x ∧ q.y ≤ max p.y r.y ∧ min p.y r.y ≤ q.y)

/-- p5-sketch.js segmentsIntersect: the standard orientation-based segment intersection test. -/
def segmentsIntersect (p1 p2 p3 p4 : Point) : Bool :=
  let o1 := orientation p1 p2 p3
  let o2 := orientation p1 p2 p4
  let o3 := orientation p3 p4 p1
  let o4 := orientation p3 p4 p2
  if o1 ≠ o2 ∧ o3 ≠ o4 then true
  else if o1 = 0 ∧ onSegment p1 p3 p2 then true
  else if o2 = 0 ∧ onSegment p1 p4 p2 then true
  else if o3 = 0 ∧ onSegment p3 p1 p4 then true
  else if o4 = 0 ∧ onSegment p3 p2 p4 then true
  else false

/-- p5-sketch.js isLotShapeValidP5: at least 3 points, and the pairwise loop
(outer index i, inner index j starting at i+2, skipping the wrap-around
adjacent pair) finds no intersecting pair of non-adjacent edges. -/
def isLotShapeValid (polygon : List Point) : Bool :=
  if polygon.length < 3 then false
  else
    (List.range polygon.length).all fun i =>
      (List.range polygon.length).all fun j =>
        if j < i + 2 then true
        else if (j + 1) % polygon.length = i then true
        else
          ! segmentsIntersect (getP polygon i) (getP polygon ((i + 1) % polygon.length))
              (getP polygon j) (getP polygon ((j + 1) % polygon.length))

/-- p5-sketch.js isHouseShapeValidP5 delegates to the lot-shape validity check. -/
def isHouseShapeValid (polygon : List Point) : Bool := isLotShapeValid polygon

/-- The witness point lies strictly on the counter-clockwise side of the directed edge (a, b). -/
def StrictLeft (a b w : Point) : Prop := orientVal a b w < 0

/-- The witness point lies strictly on the clockwise side of the directed edge (a, b). -/
def StrictRight (a b w : Point) : Prop := 0 < orientVal a b w

/-- Convex position of five vertices: every vertex lies strictly on side S of
every edge it is not an endpoint of.  For a strictly convex simple pentagon this
holds with S the interior side of each edge. -/
def ConvexPentagonWith (S : Point → Point → Point → Prop) (p0 p1 p2 p3 p4 : Point) : Prop :=
  (S p0 p1 p2 ∧ S p0 p1 p3 ∧ S p0 p1 p4) ∧
  (S p1 p2 p3 ∧ S p1 p2 p4 ∧ S p1 p2 p0) ∧
  (S p2 p3 p4 ∧ S p2 p3 p0 ∧ S p2 p3 p1) ∧
  (S p3 p4 p0 ∧ S p3 p4 p1 ∧ S p3 p4 p2) ∧
  (S p4 p0 p1 ∧ S p4 p0 p2 ∧ S p4 p0 p3)

/-- A strictly convex simple pentagon, in either winding order. -/
def ConvexSimplePentagon (p0 p1 p2 p3 p4 : Point) : Prop :=
  ConvexPentagonWith StrictLeft p0 p1 p2 p3 p4 ∨ ConvexPentagonWith StrictRight p0 p1 p2 p3 p4

/-- JS falsy-coalescing v || dflt on a possibly-absent number: absent, or present
and equal to 0, falls back to the default. -/
def jsOrQ (v : Option ℚ) (dflt : ℚ) : ℚ :=
  match v with
  | none => dflt
  | some q => if q = 0 then dflt else q

/-- JS falsy-coalescing v || dflt on a possibly-absent string. -/
def jsOrStr (v : Option String) (dflt : String) : String :=
  match v with
  | none => dflt
  | some s => if s = "" then dflt else s

/-- JS truthiness test for a possibly-absent string: absent or empty is falsy. -/
def jsFalsyStr (v : Option String) : Bool :=
  match v with
  | none => true
  | some s => s == ""

/-- Math.round: round half toward positive infinity, as a rational-valued integer. -/
def jsRound (q : ℚ) : ℚ := (⌊q + 1 / 2⌋ : ℤ)

/-- Truncation toward zero, the rounding used by the JS remainder operator. -/
def truncQ (q : ℚ) : ℤ := if 0 ≤ q then ⌊q⌋ else ⌈q⌉

/-- The JS remainder a % m for finite operands: a - m * trunc(a / m). -/
def jsMod (a m : ℚ) : ℚ := a - m * (truncQ (a / m) : ℚ)

-- --- Configuration constants of app.js ---

def DEFAULT_LOT_WIDTH_FT : ℚ := 866 / 5

def DEFAULT_LOT_DEPTH_FT : ℚ := 866 / 5

def DEFAULT_CUSTOM_HOUSE_WALL_HEIGHT : ℚ := 15

def DEFAULT_CUSTOM_HOUSE_ROOF_TYPE : String := "flat"

def DEFAULT_CUSTOM_HOUSE_WALL_COLOR : String := "#d3c1a4"

/-- app.js ROTATABLE_ELEMENT_TYPES: the fixed allow-list of rotatable element types. -/
def ROTATABLE_ELEMENT_TYPES : List String :=
  ["house", "shed", "raised_bed", "compost_bin", "bench", "patio", "fire_pit",
    "rain_barrel", "custom_house"]

/-- p5-sketch.js GRID_SIZE_FT. -/
def GRID_SIZE_FT : ℚ := 1

-- --- Data model ---

/-- The type-specific data blob carried by an element; only the numeric fields read
by the footprint table are modelled.  Absent fields are none. -/
structure ElementData where
  spacing : Option ℚ := none
  matureHeight : Option ℚ := none
  canopy : Option ℚ := none
  height : Option ℚ := none
deriving DecidableEq, Repr

/-- A placed design element of app.js (the transient threeInstance handle is not state). -/
structure Element where
  id : Nat
  type : String
  name : String
  x : ℚ
  y : ℚ
  z : ℚ
  width : ℚ
  depth : ℚ
  height : ℚ
  rotation : ℚ
  data : ElementData
deriving DecidableEq, Repr

/-- app.js lotConfig: rectangle dimensions plus the custom-polygon representation. -/
structure LotConfig where
  width : ℚ
  depth : ℚ
  isCustomShape : Bool
  customShapePoints : List Point
deriving DecidableEq, Repr

/-- app.js customHouse: the singleton free-form house.  The generic height field is
kept equal to wallHeight by every code path that writes it. -/
structure CustomHouse where
  id : String
  type : String
  name : String
  x : ℚ
  y : ℚ
  width : ℚ
  depth : ℚ
  rotation : ℚ
  outline : List Point
  wallHeight : ℚ
  height : ℚ
  roofType : String
  wallColor : String
deriving DecidableEq, Repr

-- --- Rotation (app.js handleElementRotation) ---

/-- The normalization in handleElementRotation: n = d % 360 with the JS remainder,
then n + 360 when n is negative. -/
def normalizeRotation (d : ℚ) : ℚ :=
  let n := jsMod d 360
  if n < 0 then n + 360 else n

/-- app.js handleElementRotation: returns without change when nothing is selected or
the selected type is not in the allow-list; otherwise stores the normalized angle
on the selected element. -/
def handleElementRotation (selectedElement : Option Element) (newRotationDegrees : ℚ) :
    Option Element :=
  match selectedElement with
  | none => none
  | some el =>
    if el.type ∈ ROTATABLE_ELEMENT_TYPES then
      some { el with rotation := normalizeRotation newRotationDegrees }
    else some el

-- --- Drag-move pipeline (p5-sketch.js handleP5MouseDragged and app.js handleElementMove) ---

/-- Grid snapping of handleP5MouseDragged: Math.round(v / GRID_SIZE_FT) * GRID_SIZE_FT. -/
def snapToGrid (v : ℚ) : ℚ := jsRound (v / GRID_SIZE_FT) * GRID_SIZE_FT

/-- The position handleP5MouseDragged passes to the move callback: the snapped target,
clamped to the rectangle bounds when the lot is not a custom shape.  In the custom-shape
branch the point-in-polygon comparison of the source has an empty body, so no clamping
or snap-back happens there. -/
def dragTargetPosition (lotCfg : LotConfig) (el : Element) (targetX targetY : ℚ) : ℚ × ℚ :=
  let newX := snapToGrid targetX
  let newY := snapToGrid targetY
  if lotCfg.isCustomShape = false then
    (max 0 (min newX (lotCfg.width - el.width)), max 0 (min newY (lotCfg.depth - el.depth)))
  else
    (newX, newY)

/-- app.js handleElementMove: stores the passed coordinates on the element unchanged
(the rest of the handler only repositions the rendering handle). -/
def handleElementMove (el : Element) (newXFt newYFt : ℚ) : Element :=
  { el with x := newXFt, y := newYFt }

/-- The composed move operation: a drag targeting (tx, ty) stores the drag-computed
position through the move callback. -/
def moveElementViaDrag (lotCfg : LotConfig) (el : Element) (tx ty : ℚ) : Element :=
  handleElementMove el (dragTargetPosition lotCfg el tx ty).1 (dragTargetPosition lotCfg el tx ty).2

/-- A stored coordinate is an integer multiple of the 1-foot grid. -/
def gridMultiple (v : ℚ) : Prop := ∃ k : ℤ, v = (k : ℚ) * GRID_SIZE_FT

-- --- Adding elements (app.js handleAddElement and validateAndPlaceElement) ---

/-- Minimum of a list of rationals (Math.min over a spread array; used on nonempty lists). -/
def listMin (l : List ℚ) : ℚ :=
  match l with
  | [] => 0
  | a :: rest => rest.foldl min a

/-- Maximum of a list of rationals (Math.max over a spread array; used on nonempty lists). -/
def listMax (l : List ℚ) : ℚ :=
  match l with
  | [] => 0
  | a :: rest => rest.foldl max a

/-- Width of the bounding box of a point list. -/
def bboxSpanX (pts : List Point) : ℚ := listMax (pts.map Point.x) - listMin (pts.map Point.x)

/-- Depth of the bounding box of a point list. -/
def bboxSpanY (pts : List Point) : ℚ := listMax (pts.map Point.y) - listMin (pts.map Point.y)

/-- The switch statement of handleAddElement mapping an element type to its default
(width, depth, height) footprint in feet; plant and tree read their data blob through
the falsy-coalescing defaults of the source. -/
def defaultFootprint (ty : String) (specificData : ElementData) : ℚ × ℚ × ℚ :=
  match ty with
  | "house" => (40, 50, 15)
  | "shed" => (10, 10, 8)
  | "raised_bed" => (8, 4, 3 / 2)
  | "inground_row" => (20, 4, 1 / 4)
  | "compost_bin" => (4, 4, 3)
  | "plant" =>
      (jsOrQ specificData.spacing 6 / 12, jsOrQ specificData.spacing 6 / 12,
        jsOrQ specificData.matureHeight 6 / 12)
  | "tree" => (jsOrQ specificData.canopy 20, jsOrQ specificData.canopy 20,
      jsOrQ specificData.height 30)
  | "fence_segment" => (10, 1 / 2, 6)
  | "patio" => (10, 10, 1 / 4)
  | "path" => (10, 3, 3 / 20)
  | "sprinkler" => (1 / 2, 1 / 2, 1 / 2)
  | "rain_barrel" => (5 / 2, 5 / 2, 7 / 2)
  | "bench" => (5, 2, 5 / 2)
  | "fire_pit" => (7 / 2, 7 / 2, 3 / 2)
  | "lawn_area" => (20, 20, 1 / 20)
  | _ => (5, 5, 1)

/-- app.js validateAndPlaceElement: in the custom-shape branch the bounding box is
computed and compared, but the body of the out-of-bounds conditional is empty, so the
element is left untouched; otherwise the position is clamped to the rectangle.  The
function returns true on every path. -/
def validateAndPlaceElement (lotConfig : LotConfig) (element : Element) : Bool × Element :=
  if lotConfig.isCustomShape = true ∧ lotConfig.customShapePoints ≠ [] then
    (true, element)
  else
    (true, { element with
        x := max 0 (min element.x (lotConfig.width - element.width)),
        y := max 0 (min element.y (lotConfig.depth - element.depth)) })

/-- Outcome of handleAddElement: success, the drawing-mode rejection at the top of the
handler, or the lot-boundary alert branch guarded by validateAndPlaceElement. -/
inductive AddOutcome where
  | added (el : Element)
  | rejectedDrawingMode
  | rejectedOutOfBounds
deriving DecidableEq, Repr

/-- The element literal built inside handleAddElement before validation: centered in the
current viewport (half the current lot extent shifted by the pan offset), shifted left
and up by half its own footprint, with footprint from the type table.  Display-name
prettifying is not modelled (the name is never read by the claims). -/
def newElementFor (lotConfig : LotConfig) (panOffset : Point) (ty : String)
    (specificData : ElementData) (nextElementId : Nat) : Element :=
  let hasPolygon := lotConfig.isCustomShape = true ∧ lotConfig.customShapePoints ≠ []
  let currentLotWidth := if hasPolygon then bboxSpanX lotConfig.customShapePoints
    else lotConfig.width
  let currentLotDepth := if hasPolygon then bboxSpanY lotConfig.customShapePoints
    else lotConfig.depth
  let viewCenterXFt := currentLotWidth / 2 - panOffset.x
  let viewCenterYFt := currentLotDepth / 2 - panOffset.y
  let fp := defaultFootprint ty specificData
  { id := nextElementId, type := ty, name := ty,
    x := viewCenterXFt - fp.1 / 2, y := viewCenterYFt - fp.2.1 / 2, z := 0,
    width := fp.1, depth := fp.2.1, height := fp.2.2, rotation := 0,
    data := specificData }

/-- app.js handleAddElement: rejected while a drawing mode is active; otherwise the
new element is built and passed through validateAndPlaceElement, whose false return
would trigger the out-of-bounds alert. -/
def handleAddElement (currentDrawingMode : Option String) (lotConfig : LotConfig)
    (panOffset : Point) (ty : String) (specificData : ElementData)
    (nextElementId : Nat) : AddOutcome :=
  if currentDrawingMode.isSome then .rejectedDrawingMode
  else
    let newElement := newElementFor lotConfig panOffset ty specificData nextElementId
    let vp := validateAndPlaceElement lotConfig newElement
    if vp.1 = true then .added vp.2 else .rejectedOutOfBounds

-- --- Lot mode switching (app.js finishDrawingMode and handleUpdateLotRect) ---

/-- The lot_polygon branch of app.js finishDrawingMode: on a valid polygon the custom
representation becomes authoritative (points normalized to counter-clockwise, rectangle
dimensions zeroed); otherwise the alert fires and the configuration is unchanged. -/
def finishDrawingLot (lotConfig : LotConfig) (polygon : List Point) : LotConfig :=
  if 3 ≤ polygon.length ∧ isLotShapeValid polygon = true then
    { isCustomShape := true,
      customShapePoints := ensureWindingOrder polygon,
      width := 0, depth := 0 }
  else lotConfig

/-- app.js handleUpdateLotRect: parseFloat results are modelled as Option (none for NaN);
non-positive or unparsable dimensions alert and leave the configuration unchanged,
otherwise the rectangle becomes authoritative and the polygon points are emptied. -/
def handleUpdateLotRect (lotConfig : LotConfig) (newWidth newDepth : Option ℚ) : LotConfig :=
  match newWidth, newDepth with
  | some w, some d =>
    if w ≤ 0 ∨ d ≤ 0 then lotConfig
    else { width := w, depth := d, isCustomShape := false, customShapePoints := [] }
  | _, _ => lotConfig

-- --- Save and load (app.js saveDesign and the loadDesignInput change handler) ---

/-- The customHouseData object written by saveDesign: the custom house spread with the
legacy height field explicitly removed and the three current roof and wall fields kept. -/
structure SavedHouse where
  id : String
  type : String
  name : String
  x : ℚ
  y : ℚ
  width : ℚ
  depth : ℚ
  rotation : ℚ
  outline : List Point
  wallHeight : Option ℚ
  height : Option ℚ
  roofType : Option String
  wallColor : Option String
deriving DecidableEq, Repr

/-- The parsed save file.  createdAt and viewSettings are transient view data read by no
claim and are omitted.  Fields a JSON file may lack are Option. -/
structure DesignFile where
  version : Option String
  lotConfiguration : Option LotConfig
  customHouseData : Option SavedHouse
  elements : Option (List Element)
deriving DecidableEq, Repr

/-- The store state touched by the load handler. -/
structure LoadedState where
  elements : List Element
  customHouse : Option CustomHouse
  lotConfig : LotConfig
  selectedId : Option String
deriving DecidableEq, Repr

/-- The id namespace of custom houses. -/
def customHouseIdStart : String := "custom_house_"

/-- app.js saveDesign: the nothing-to-save alert, then the versioned design object.
The rotation fallback el.rotation || 0 is the identity on a numeric rotation field
and is written as the field itself. -/
def saveDesign (elements : List Element) (customHouse : Option CustomHouse)
    (lotConfig : LotConfig) : Option DesignFile :=
  if elements = [] ∧ customHouse = none ∧ lotConfig.isCustomShape = false then none
  else some {
    version := some "1.4.0",
    lotConfiguration := some lotConfig,
    customHouseData := customHouse.map fun h => {
      id := h.id, type := h.type, name := h.name,
      x := h.x, y := h.y, width := h.width, depth := h.depth, rotation := h.rotation,
      outline := h.outline,
      wallHeight := some h.wallHeight,
      height := none,
      roofType := some h.roofType, wallColor := some h.wallColor },
    elements := some (elements.map fun el => {
      id := el.id, type := el.type, name := el.name,
      x := el.x, y := el.y, z := el.z,
      width := el.width, depth := el.depth, height := el.height,
      rotation := el.rotation, data := el.data }) }

/-- The loadDesignInput change handler.  A parse failure (none) is caught before any
mutation, so the incoming state is returned with the user-facing message.  A parsed
file lacking a truthy version, or lacking all three of elements, customHouseData and
lotConfiguration, throws before the state is cleared.  Otherwise the state is rebuilt:
the lot defaults when absent, the custom house takes wallHeight || height || default
across the version drift, elements are re-inserted (their rotation fallback to 0 is the
identity on a numeric field), and the loaded house (or nothing) ends up selected.
nextElementId bookkeeping is not modelled; it is read by no claim. -/
def loadDesign (parsed : Option DesignFile) (st : LoadedState) : LoadedState × Option String :=
  match parsed with
  | none => (st, some "Failed to load design")
  | some designData =>
    if (designData.elements = none ∧ designData.customHouseData = none ∧
          designData.lotConfiguration = none) ∨
        designData.version = none ∨ designData.version = some "" then
      (st, some "Invalid design file format.")
    else
      let lotConfig := match designData.lotConfiguration with
        | some lc => lc
        | none =>
            { width := DEFAULT_LOT_WIDTH_FT, depth := DEFAULT_LOT_DEPTH_FT,
              isCustomShape := false, customShapePoints := [] }
      let customHouse := designData.customHouseData.map fun loadedHouseData =>
        let wh := jsOrQ loadedHouseData.wallHeight
          (jsOrQ loadedHouseData.height DEFAULT_CUSTOM_HOUSE_WALL_HEIGHT)
        let keptId := if customHouseIdStart.isPrefixOf loadedHouseData.id
          then loadedHouseData.id else customHouseIdStart ++ toString 0
        ({ id := keptId,
           type := loadedHouseData.type, name := loadedHouseData.name,
           x := loadedHouseData.x, y := loadedHouseData.y,
           width := loadedHouseData.width, depth := loadedHouseData.depth,
           rotation := loadedHouseData.rotation, outline := loadedHouseData.outline,
           wallHeight := wh, height := wh,
           roofType := jsOrStr loadedHouseData.roofType DEFAULT_CUSTOM_HOUSE_ROOF_TYPE,
           wallColor := jsOrStr loadedHouseData.wallColor DEFAULT_CUSTOM_HOUSE_WALL_COLOR }
          : CustomHouse)
      let elements := (designData.elements.getD []).map fun elData => elData
      ({ elements := elements, customHouse := customHouse, lotConfig := lotConfig,
          selectedId := customHouse.map CustomHouse.id }, none)

-- --- Custom-house roof construction (createCustomHouseMesh, src/unnamed/part_001) ---

/-- The fields of the house object read by the roof section of createCustomHouseMesh. -/
structure HouseGeomData where
  outline : Option (List Point)
  width : ℚ
  depth : ℚ
  wallHeight : ℚ
  roofType : String
  roofPeakHeightRatio : Option ℚ
  hipRoofPeakHeightRatio : Option ℚ
  gableDirection : Option String
deriving DecidableEq, Repr

/-- The roof construction produced by createCustomHouseMesh: nothing, a coplanar 2D cap
laid flat at the wall-top elevation, a triangular profile extruded for a given length
(rotated onto the x axis when alongX), or an explicit vertex/index buffer. -/
inductive Roof where
  | noRoof
  | flatCap (base : List Point) (elevation : ℚ)
  | gabledPrism (profileHalfSpan : ℚ) (peakHeight : ℚ) (extrusionLength : ℚ) (alongX : Bool)
  | hippedBuffer (vertices : List (ℚ × ℚ × ℚ)) (indices : List Nat) (baseElevation : ℚ)
deriving DecidableEq, Repr

/-- The roofBaseOutline of createCustomHouseMesh: the outline when present (a JS array is
truthy even when empty), else the centered rectangle fallback. -/
def roofBaseOutlineOf (houseData : HouseGeomData) : List Point :=
  match houseData.outline with
  | some l => l
  | none =>
    [⟨-houseData.width / 2, -houseData.depth / 2⟩, ⟨houseData.width / 2, -houseData.depth / 2⟩,
      ⟨houseData.width / 2, houseData.depth / 2⟩, ⟨-houseData.width / 2, houseData.depth / 2⟩]

/-- The roof section of createCustomHouseMesh (src/unnamed/part_001 lines 524-718),
a discriminated union on roofType.  In the hipped branch the source pushes two interim
index lists and clears them with indices.length = 0 before the final list of each case,
so only the final list of each case is modelled. -/
def buildCustomHouseRoof (houseData : HouseGeomData) : Roof :=
  let roofBaseOutline := roofBaseOutlineOf houseData
  if houseData.roofType = "flat" ∧ 0 < roofBaseOutline.length then
    .flatCap roofBaseOutline houseData.wallHeight
  else if houseData.roofType = "gabled" ∧ 0 < roofBaseOutline.length then
    let roofFootprintWidth := bboxSpanX roofBaseOutline
    let roofFootprintDepth := bboxSpanY roofBaseOutline
    let roofPeakRelativeHeight :=
      jsOrQ houseData.roofPeakHeightRatio (3 / 10) * min roofFootprintWidth roofFootprintDepth
    let gableAlongX := houseData.gableDirection = some "x_axis" ∨
      (jsFalsyStr houseData.gableDirection = true ∧ roofFootprintDepth ≤ roofFootprintWidth)
    if gableAlongX then
      .gabledPrism (roofFootprintDepth / 2) roofPeakRelativeHeight roofFootprintWidth true
    else
      .gabledPrism (roofFootprintWidth / 2) roofPeakRelativeHeight roofFootprintDepth false
  else if houseData.roofType = "hipped" ∧ 0 < roofBaseOutline.length then
    let footprintWidth := bboxSpanX roofBaseOutline
    let footprintDepth := bboxSpanY roofBaseOutline
    let peakHeight :=
      jsOrQ houseData.hipRoofPeakHeightRatio (3 / 10) * min footprintWidth footprintDepth
    let hFW := footprintWidth / 2
    let hFD := footprintDepth / 2
    let ridge :=
      if footprintDepth < footprintWidth then
        ((-(footprintWidth / 2 - footprintDepth / 2), (0 : ℚ)),
          (footprintWidth / 2 - footprintDepth / 2, (0 : ℚ)))
      else if footprintWidth < footprintDepth then
        (((0 : ℚ), -(footprintDepth / 2 - footprintWidth / 2)),
          ((0 : ℚ), footprintDepth / 2 - footprintWidth / 2))
      else (((0 : ℚ), (0 : ℚ)), ((0 : ℚ), (0 : ℚ)))
    let vertices : List (ℚ × ℚ × ℚ) :=
      [(-hFW, 0, -hFD), (hFW, 0, -hFD), (hFW, 0, hFD), (-hFW, 0, hFD),
        (ridge.1.1, peakHeight, ridge.1.2), (ridge.2.1, peakHeight, ridge.2.2)]
    let indices : List Nat :=
      if footprintDepth < footprintWidth then
        [0, 1, 5, 0, 5, 4, 3, 4, 5, 3, 5, 2, 0, 4, 3, 1, 2, 5]
      else if footprintWidth < footprintDepth then
        [0, 1, 4, 3, 2, 5, 0, 4, 5, 0, 5, 3, 1, 2, 5, 1, 5, 4]
      else
        [0, 1, 4, 1, 2, 4, 2, 3, 4, 3, 0, 4]
    .hippedBuffer vertices indices houseData.wallHeight
  else .noRoof

-- --- Concrete fixtures used by witnesses and counterexamples ---

/-- The default rectangular lot of app.js (173.2 by 173.2 feet). -/
def exampleLot : LotConfig :=
  { width := DEFAULT_LOT_WIDTH_FT, depth := DEFAULT_LOT_DEPTH_FT,
    isCustomShape := false, customShapePoints := [] }

/-- A default house element (40 by 50 foot footprint) at the lot corner. -/
def exampleHouse : Element :=
  { id := 0, type := "house", name := "House", x := 0, y := 0, z := 0,
    width := 40, depth := 50, height := 15, rotation := 0, data := {} }

/-- A tree element, a type outside the rotation allow-list. -/
def exampleTree : Element :=
  { id := 1, type := "tree", name := "Oak", x := 10, y := 10, z := 0,
    width := 20, depth := 20, height := 30, rotation := 0, data := {} }

/-- A lot configuration in custom-polygon mode, as produced by finishing a drawn triangle. -/
def exampleCustomLot : LotConfig :=
  { width := 0, depth := 0, isCustomShape := true,
    customShapePoints := [⟨0, 0⟩, ⟨40, 0⟩, ⟨0, 40⟩] }

/-- A concrete custom house over a 20 by 10 L-free rectangle outline. -/
def exampleCustomHouse : CustomHouse :=
  { id := "custom_house_2", type := "custom_house", name := "Custom House",
    x := 30, y := 40, width := 20, depth := 10, rotation := 0,
    outline := [⟨-10, -5⟩, ⟨10, -5⟩, ⟨10, 5⟩, ⟨-10, 5⟩],
    wallHeight := 12, height := 12, roofType := "gabled", wallColor := "#d3c1a4" }

/-- A concrete centered rectangular outline, 20 feet wide and 10 deep. -/
def exampleOutlineRect : List Point := [⟨-10, -5⟩, ⟨10, -5⟩, ⟨10, 5⟩, ⟨-10, 5⟩]

/-- The geometry data of a concrete custom house, with a chosen roof type and no
optional ratio or direction overrides (as the app builds them). -/
def exampleHouseGeom (rt : String) : HouseGeomData :=
  { outline := some exampleOutlineRect,
    width := 20, depth := 10, wallHeight := 12, roofType := rt,
    roofPeakHeightRatio := none, hipRoofPeakHeightRatio := none, gableDirection := none }

/-- A store state holding one tree on the default lot, used as the pre-load state. -/
def exampleState : LoadedState :=
  { elements := [exampleTree], customHouse := none, lotConfig := exampleLot,
    selectedId := none }

-- ------------------------------------------------------------------
-- Theorems
-- ------------------------------------------------------------------

/-- A negative orientation determinant classifies the triple as counter-clockwise (code value 2). -/
theorem orientation_of_neg {p q r : Point} (h : orientVal p q r < 0) :
    orientation p q r = 2 := by
  unfold orientation
  rw [if_neg (by exact ne_of_lt h), if_neg (by exact not_lt_of_lt h)]

/-- A positive orientation determinant classifies the triple as clockwise (code value 1). -/
theorem orientation_of_pos {p q r : Point} (h : 0 < orientVal p q r) :
    orientation p q r = 1 := by
  unfold orientation
  rw [if_neg (by exact (ne_of_lt h).symm), if_pos h]

/-- When each segment has both endpoints of the other strictly on one side
(equal non-collinear orientations), the intersection test is negative. -/
theorem segmentsIntersect_eq_false {p1 p2 p3 p4 : Point}
    (h12 : orientation p1 p2 p3 = orientation p1 p2 p4)
    (h12n : orientation p1 p2 p3 ≠ 0)
    (h34 : orientation p3 p4 p1 = orientation p3 p4 p2)
    (h34n : orientation p3 p4 p1 ≠ 0) :
    segmentsIntersect p1 p2 p3 p4 = false := by
  unfold segmentsIntersect
  simp only [h12, h34]
  simp [h12 ▸ h12n, h34 ▸ h34n, h12n, h34n]

/-- C3: the polygon validity predicate returns false for every list with fewer
than 3 points; it returns false for every quadrilateral in which a pair of
non-adjacent edges intersects (a bowtie); and it returns true for every convex
simple pentagon.  The check is the pairwise segment-intersection loop of
isLotShapeValidP5 over non-adjacent edge pairs using orientation tests. -/
theorem c3_polygon_validity (l : List Point) (q0 q1 q2 q3 p0 p1 p2 p3 p4 : Point) :
    (l.length < 3 → isLotShapeValid l = false) ∧
    ((segmentsIntersect q0 q1 q2 q3 = true ∨ segmentsIntersect q1 q2 q3 q0 = true) →
      isLotShapeValid [q0, q1, q2, q3] = false) ∧
    (ConvexSimplePentagon p0 p1 p2 p3 p4 →
      isLotShapeValid [p0, p1, p2, p3, p4] = true) := by
  refine ⟨fun h => by simp [isLotShapeValid, h], fun h => ?_, fun h => ?_⟩
  · rcases h with h | h <;>
      simp [isLotShapeValid, List.range_succ, getP, h]
  · simp only [isLotShapeValid, getP]
    norm_num
    intro i hi j hj
    rcases h with ⟨⟨ha1, ha2, ha3⟩, ⟨hb1, hb2, hb3⟩, ⟨hc1, hc2, hc3⟩, ⟨hd1, hd2, hd3⟩,
        ⟨he1, he2, he3⟩⟩ |
      ⟨⟨ha1, ha2, ha3⟩, ⟨hb1, hb2, hb3⟩, ⟨hc1, hc2, hc3⟩, ⟨hd1, hd2, hd3⟩, ⟨he1, he2, he3⟩⟩ <;>
      interval_cases i <;> interval_cases j <;>
      first
        | (left; omega)
        | (right; left; omega)
        | (right; right;
            simp only [List.getElem?_cons_zero, List.getElem?_cons_succ, Option.getD_some,
              Nat.reduceMod, Nat.reduceAdd];
            apply segmentsIntersect_eq_false <;>
              simp_all [StrictLeft, StrictRight, orientation_of_neg, orientation_of_pos])

/-- Witness for C3: the empty list is rejected, the concrete bowtie
quadrilateral (0,0) (2,2) (2,0) (0,2) is rejected, and the concrete convex
pentagon (0,0) (4,0) (6,3) (2,6) (-2,3) is accepted. -/
theorem c3_polygon_validity_witness :
    isLotShapeValid ([] : List Point) = false ∧
    isLotShapeValid [⟨0, 0⟩, ⟨2, 2⟩, ⟨2, 0⟩, ⟨0, 2⟩] = false ∧
    isLotShapeValid [⟨0, 0⟩, ⟨4, 0⟩, ⟨6, 3⟩, ⟨2, 6⟩, ⟨-2, 3⟩] = true := by
  have h := c3_polygon_validity [] ⟨0, 0⟩ ⟨2, 2⟩ ⟨2, 0⟩ ⟨0, 2⟩ ⟨0, 0⟩ ⟨4, 0⟩ ⟨6, 3⟩ ⟨2, 6⟩ ⟨-2, 3⟩
  refine ⟨h.1 (by simp), h.2.1 (Or.inl ?_), h.2.2 (Or.inl ?_)⟩
  · norm_num [segmentsIntersect, orientation, orientVal, onSegment]
  · norm_num [ConvexPentagonWith, StrictLeft, orientVal]

/-- The rotation normalization of handleElementRotation always lands in [0, 360). -/
theorem normalizeRotation_range (d : ℚ) :
    0 ≤ normalizeRotation d ∧ normalizeRotation d < 360 := by
  have h360 : (0 : ℚ) < 360 := by norm_num
  have hd : d = 360 * (d / 360) := by field_simp
  simp only [normalizeRotation, jsMod, truncQ]
  by_cases h : 0 ≤ d / 360
  · rw [if_pos h]
    have h0 : ((⌊d / 360⌋ : ℤ) : ℚ) ≤ d / 360 := Int.floor_le _
    have h1 : d / 360 < ((⌊d / 360⌋ : ℤ) : ℚ) + 1 := Int.lt_floor_add_one _
    have e0 : 0 ≤ d - 360 * ((⌊d / 360⌋ : ℤ) : ℚ) := by nlinarith
    have e1 : d - 360 * ((⌊d / 360⌋ : ℤ) : ℚ) < 360 := by nlinarith
    rw [if_neg (not_lt.mpr e0)]
    exact ⟨e0, e1⟩
  · rw [if_neg h]
    have h0 : d / 360 ≤ ((⌈d / 360⌉ : ℤ) : ℚ) := Int.le_ceil _
    have h1 : ((⌈d / 360⌉ : ℤ) : ℚ) < d / 360 + 1 := Int.ceil_lt_add_one _
    have e0 : d - 360 * ((⌈d / 360⌉ : ℤ) : ℚ) ≤ 0 := by nlinarith
    have e1 : -360 < d - 360 * ((⌈d / 360⌉ : ℤ) : ℚ) := by nlinarith
    by_cases hneg : d - 360 * ((⌈d / 360⌉ : ℤ) : ℚ) < 0
    · rw [if_pos hneg]
      constructor <;> linarith
    · rw [if_neg hneg]
      constructor <;> linarith

/-- C4: for every rational input d, handleElementRotation stores a rotation in
[0, 360) on the selected element when its type is in the fixed allow-list, and
leaves the state unchanged otherwise (including when nothing is selected). -/
theorem c4_rotation_normalized (el : Element) (d : ℚ) :
    (el.type ∈ ROTATABLE_ELEMENT_TYPES →
      handleElementRotation (some el) d = some { el with rotation := normalizeRotation d } ∧
      0 ≤ normalizeRotation d ∧ normalizeRotation d < 360) ∧
    (el.type ∉ ROTATABLE_ELEMENT_TYPES → handleElementRotation (some el) d = some el) ∧
    handleElementRotation none d = none := by
  refine ⟨fun hmem => ⟨?_, normalizeRotation_range d⟩, fun hnot => ?_, rfl⟩
  · simp [handleElementRotation, hmem]
  · simp [handleElementRotation, hnot]

/-- Witness for C4: rotating the rotatable house element by -450 stores the
normalized angle (in range), and rotating a tree leaves it unchanged. -/
theorem c4_rotation_normalized_witness :
    (handleElementRotation (some exampleHouse) (-450) =
        some { exampleHouse with rotation := normalizeRotation (-450) } ∧
      0 ≤ normalizeRotation (-450 : ℚ) ∧ normalizeRotation (-450 : ℚ) < 360) ∧
    handleElementRotation (some exampleTree) 45 = some exampleTree := by
  have h1 := c4_rotation_normalized exampleHouse (-450)
  have h2 := c4_rotation_normalized exampleTree 45
  exact ⟨h1.1 (by decide), h2.2.1 (by decide)⟩

/-- C7: exactly one lot representation is authoritative at a time.  Finishing a valid
custom lot polygon sets isCustomShape and zeroes the rectangle dimensions; updating the
rectangle with positive dimensions clears isCustomShape and empties the polygon. -/
theorem c7_lot_representation_switch (cfg cfg2 : LotConfig) (drawn : List Point) (w d : ℚ)
    (h3 : 3 ≤ drawn.length) (hv : isLotShapeValid drawn = true)
    (hw : 0 < w) (hd : 0 < d) :
    ((finishDrawingLot cfg drawn).isCustomShape = true ∧
      (finishDrawingLot cfg drawn).width = 0 ∧
      (finishDrawingLot cfg drawn).depth = 0) ∧
    ((handleUpdateLotRect cfg2 (some w) (some d)).isCustomShape = false ∧
      (handleUpdateLotRect cfg2 (some w) (some d)).customShapePoints = []) := by
  constructor
  · simp [finishDrawingLot, h3, hv]
  · simp [handleUpdateLotRect, not_le.mpr hw, not_le.mpr hd]

/-- Witness for C7: finishing a concrete drawn triangle on the default lot, and
restoring a 50 by 60 rectangle on a custom-shaped lot. -/
theorem c7_lot_representation_switch_witness :
    ((finishDrawingLot exampleLot [⟨0, 0⟩, ⟨40, 0⟩, ⟨0, 40⟩]).isCustomShape = true ∧
      (finishDrawingLot exampleLot [⟨0, 0⟩, ⟨40, 0⟩, ⟨0, 40⟩]).width = 0 ∧
      (finishDrawingLot exampleLot [⟨0, 0⟩, ⟨40, 0⟩, ⟨0, 40⟩]).depth = 0) ∧
    ((handleUpdateLotRect exampleCustomLot (some 50) (some 60)).isCustomShape = false ∧
      (handleUpdateLotRect exampleCustomLot (some 50) (some 60)).customShapePoints = []) := by
  refine c7_lot_representation_switch exampleLot exampleCustomLot [⟨0, 0⟩, ⟨40, 0⟩, ⟨0, 40⟩]
    50 60 (by decide) ?_ (by norm_num) (by norm_num)
  norm_num [isLotShapeValid, segmentsIntersect, orientation, orientVal, onSegment, getP,
    List.range_succ]

/-- validateAndPlaceElement returns true on both of its branches. -/
theorem validateAndPlaceElement_fst (cfg : LotConfig) (el : Element) :
    (validateAndPlaceElement cfg el).1 = true := by
  unfold validateAndPlaceElement
  split <;> rfl

/-- C10: validateAndPlaceElement returns true for every element and lot configuration,
performs no mutation at all when the lot is a custom polygon (the out-of-bounds
comparison has an empty body), and therefore the out-of-bounds failure branch of
handleAddElement is unreachable. -/
theorem c10_validate_never_rejects (lotConfig : LotConfig) (el : Element)
    (dm : Option String) (pan : Point) (ty : String) (sd : ElementData) (nid : Nat) :
    (validateAndPlaceElement lotConfig el).1 = true ∧
    (lotConfig.isCustomShape = true → lotConfig.customShapePoints ≠ [] →
      validateAndPlaceElement lotConfig el = (true, el)) ∧
    handleAddElement dm lotConfig pan ty sd nid ≠ AddOutcome.rejectedOutOfBounds := by
  refine ⟨validateAndPlaceElement_fst lotConfig el, ?_, ?_⟩
  · intro h1 h2
    simp [validateAndPlaceElement, h1, h2]
  · unfold handleAddElement
    split
    · simp
    · simp [validateAndPlaceElement_fst]

/-- Witness for C10: on a concrete custom-polygon lot the validator passes the house
element through untouched, and a concrete add is not rejected for bounds. -/
theorem c10_validate_never_rejects_witness :
    (validateAndPlaceElement exampleCustomLot exampleHouse).1 = true ∧
    validateAndPlaceElement exampleCustomLot exampleHouse = (true, exampleHouse) ∧
    handleAddElement none exampleCustomLot ⟨0, 0⟩ ("shed") {} 5 ≠
      AddOutcome.rejectedOutOfBounds := by
  have h := c10_validate_never_rejects exampleCustomLot exampleHouse none ⟨0, 0⟩ ("shed") {} 5
  exact ⟨h.1, h.2.1 (by decide) (by decide), h.2.2⟩

/-- C6: adding any element type on a rectangular lot yields an element whose stored
position lies within the lot bounding box, because validateAndPlaceElement clamps it. -/
theorem c6_added_element_within_lot (lotConfig : LotConfig) (panOffset : Point) (ty : String)
    (sd : ElementData) (nid : Nat)
    (hrect : lotConfig.isCustomShape = false)
    (hw : 0 < lotConfig.width) (hdep : 0 < lotConfig.depth)
    (hfw : 0 ≤ (defaultFootprint ty sd).1) (hfd : 0 ≤ (defaultFootprint ty sd).2.1) :
    ∃ el, handleAddElement none lotConfig panOffset ty sd nid = AddOutcome.added el ∧
      0 ≤ el.x ∧ el.x ≤ lotConfig.width ∧ 0 ≤ el.y ∧ el.y ≤ lotConfig.depth := by
  refine ⟨(validateAndPlaceElement lotConfig (newElementFor lotConfig panOffset ty sd nid)).2,
    ?_, ?_⟩
  · simp [handleAddElement, validateAndPlaceElement_fst]
  · have hnot : ¬(lotConfig.isCustomShape = true ∧ lotConfig.customShapePoints ≠ []) := by
      simp [hrect]
    have hwid : (newElementFor lotConfig panOffset ty sd nid).width =
        (defaultFootprint ty sd).1 := rfl
    have hdepth : (newElementFor lotConfig panOffset ty sd nid).depth =
        (defaultFootprint ty sd).2.1 := rfl
    rw [validateAndPlaceElement, if_neg hnot]
    refine ⟨le_max_left 0 _, ?_, le_max_left 0 _, ?_⟩
    · simp only [hwid]
      exact max_le (le_of_lt hw) (le_trans (min_le_right _ _) (by linarith))
    · simp only [hdepth]
      exact max_le (le_of_lt hdep) (le_trans (min_le_right _ _) (by linarith))

/-- Witness for C6: adding a shed on the default 173.2-foot lot lands inside it. -/
theorem c6_added_element_within_lot_witness :
    ∃ el, handleAddElement none exampleLot ⟨0, 0⟩ ("shed") {} 7 = AddOutcome.added el ∧
      0 ≤ el.x ∧ el.x ≤ exampleLot.width ∧ 0 ≤ el.y ∧ el.y ≤ exampleLot.depth := by
  refine c6_added_element_within_lot exampleLot ⟨0, 0⟩ ("shed") {} 7 (by decide) ?_ ?_
    (by decide) (by decide) <;>
    norm_num [exampleLot, DEFAULT_LOT_WIDTH_FT, DEFAULT_LOT_DEPTH_FT]

/-- Snapping always produces an integer multiple of the grid. -/
theorem snapToGrid_gridMultiple (v : ℚ) : gridMultiple (snapToGrid v) :=
  ⟨⌊v / GRID_SIZE_FT + 1 / 2⌋, by simp [snapToGrid, jsRound]⟩

/-- Counterexample for C5 as frozen: on the default 173.2-foot lot, dragging the 40-foot
house toward (1000, 1000) stores x = 133.2, clamped to the non-integer bound
width - elementWidth, which is not an integer multiple of 1 foot.  The claim that both
stored coordinates are always grid multiples is therefore false. -/
theorem c5_counterexample :
    (moveElementViaDrag exampleLot exampleHouse 1000 1000).x = 666 / 5 ∧
    ¬ gridMultiple ((moveElementViaDrag exampleLot exampleHouse 1000 1000).x) := by
  have hx : (moveElementViaDrag exampleLot exampleHouse 1000 1000).x = 666 / 5 := by
    norm_num [moveElementViaDrag, dragTargetPosition, handleElementMove, snapToGrid, jsRound,
      GRID_SIZE_FT, exampleLot, exampleHouse, DEFAULT_LOT_WIDTH_FT, min_def, max_def]
  refine ⟨hx, ?_⟩
  rw [hx]
  rintro ⟨k, hk⟩
  rw [GRID_SIZE_FT, mul_one] at hk
  have h5 : ((5 * k : ℤ) : ℚ) = 666 := by push_cast; linarith
  have h6 : (5 * k : ℤ) = 666 := by exact_mod_cast h5
  omega

/-- C5 as amended: the move pipeline first snaps the target to the 1-foot grid (an
integer multiple of 1 foot); on a rectangular lot the snapped position is then clamped
to [0, width - elementWidth] and [0, depth - elementDepth] (so the element lies within
the rectangle whenever it fits, and the stored value is the grid-snapped target whenever
that target is in bounds); on a polygon lot no clamping is applied and the stored
position is exactly the snapped target. -/
theorem c5_move_snapped_then_clamped (lotCfg : LotConfig) (el : Element) (tx ty : ℚ) :
    gridMultiple (snapToGrid tx) ∧ gridMultiple (snapToGrid ty) ∧
    (lotCfg.isCustomShape = true →
      (moveElementViaDrag lotCfg el tx ty).x = snapToGrid tx ∧
      (moveElementViaDrag lotCfg el tx ty).y = snapToGrid ty) ∧
    (lotCfg.isCustomShape = false →
      (moveElementViaDrag lotCfg el tx ty).x
          = max 0 (min (snapToGrid tx) (lotCfg.width - el.width)) ∧
      (moveElementViaDrag lotCfg el tx ty).y
          = max 0 (min (snapToGrid ty) (lotCfg.depth - el.depth)) ∧
      (el.width ≤ lotCfg.width → el.depth ≤ lotCfg.depth →
        0 ≤ (moveElementViaDrag lotCfg el tx ty).x ∧
        (moveElementViaDrag lotCfg el tx ty).x + el.width ≤ lotCfg.width ∧
        0 ≤ (moveElementViaDrag lotCfg el tx ty).y ∧
        (moveElementViaDrag lotCfg el tx ty).y + el.depth ≤ lotCfg.depth) ∧
      (0 ≤ snapToGrid tx → snapToGrid tx ≤ lotCfg.width - el.width →
        (moveElementViaDrag lotCfg el tx ty).x = snapToGrid tx) ∧
      (0 ≤ snapToGrid ty → snapToGrid ty ≤ lotCfg.depth - el.depth →
        (moveElementViaDrag lotCfg el tx ty).y = snapToGrid ty)) := by
  refine ⟨snapToGrid_gridMultiple tx, snapToGrid_gridMultiple ty, fun hc => ?_, fun hc => ?_⟩
  · simp [moveElementViaDrag, dragTargetPosition, handleElementMove, hc]
  · have e1 : (moveElementViaDrag lotCfg el tx ty).x
        = max 0 (min (snapToGrid tx) (lotCfg.width - el.width)) := by
      simp [moveElementViaDrag, dragTargetPosition, handleElementMove, hc]
    have e2 : (moveElementViaDrag lotCfg el tx ty).y
        = max 0 (min (snapToGrid ty) (lotCfg.depth - el.depth)) := by
      simp [moveElementViaDrag, dragTargetPosition, handleElementMove, hc]
    refine ⟨e1, e2, fun hw hd => ?_, fun h1 h2 => ?_, fun h1 h2 => ?_⟩
    · have bx : max 0 (min (snapToGrid tx) (lotCfg.width - el.width))
          ≤ lotCfg.width - el.width := max_le (by linarith) (min_le_right _ _)
      have by' : max 0 (min (snapToGrid ty) (lotCfg.depth - el.depth))
          ≤ lotCfg.depth - el.depth := max_le (by linarith) (min_le_right _ _)
      refine ⟨?_, ?_, ?_, ?_⟩
      · rw [e1]; exact le_max_left 0 _
      · rw [e1]; linarith
      · rw [e2]; exact le_max_left 0 _
      · rw [e2]; linarith
    · rw [e1, min_eq_left h2, max_eq_right h1]
    · rw [e2, min_eq_left h2, max_eq_right h1]

/-- Witness for the amended C5: a drag on a custom lot stores the snapped target, and a
far drag on the default rectangular lot stays inside it. -/
theorem c5_move_snapped_then_clamped_witness :
    gridMultiple (snapToGrid (7 : ℚ)) ∧
    (moveElementViaDrag exampleCustomLot exampleHouse 7 (13 / 2)).x = snapToGrid 7 ∧
    0 ≤ (moveElementViaDrag exampleLot exampleHouse 1000 1000).x ∧
    (moveElementViaDrag exampleLot exampleHouse 1000 1000).x + exampleHouse.width
      ≤ exampleLot.width := by
  have h1 := c5_move_snapped_then_clamped exampleCustomLot exampleHouse 7 (13 / 2)
  have h2 := c5_move_snapped_then_clamped exampleLot exampleHouse 1000 1000
  have hb := (h2.2.2.2 (by decide)).2.2.1
    (by norm_num [exampleLot, exampleHouse, DEFAULT_LOT_WIDTH_FT])
    (by norm_num [exampleLot, exampleHouse, DEFAULT_LOT_DEPTH_FT])
  exact ⟨h1.1, (h1.2.2.1 (by decide)).1, hb.1, hb.2.1⟩

/-- Indexing a reversed list reads the mirrored index of the original. -/
theorem getP_reverse (l : List Point) (i : Nat) (h : i < l.length) :
    getP l.reverse i = getP l (l.length - 1 - i) := by
  unfold getP
  rw [List.getD_eq_getElem?_getD, List.getD_eq_getElem?_getD, List.getElem?_reverse h]

/-- Reversing the vertex list negates the cyclic shoelace sum. -/
theorem shoelace_sum_reverse (l : List Point) :
    (∑ i in Finset.range l.reverse.length, shoelaceTerm l.reverse i)
      = -(∑ i in Finset.range l.length, shoelaceTerm l i) := by
  rcases l with _ | ⟨p, l0⟩
  · simp
  set l := p :: l0 with hl
  set m := l0.length with hm
  have hlen : l.length = m + 1 := by simp [hl, hm]
  have hrlen : l.reverse.length = m + 1 := by simp [hl, hm]
  have key0 : shoelaceTerm l.reverse m = -(shoelaceTerm l m) := by
    unfold shoelaceTerm
    rw [hrlen, hlen, Nat.mod_self]
    rw [getP_reverse l m (by omega), getP_reverse l 0 (by omega)]
    have e1 : l.length - 1 - m = 0 := by omega
    have e2 : l.length - 1 - 0 = m := by omega
    rw [e1, e2]
    ring
  have keyS : ∀ j, j < m → shoelaceTerm l.reverse (m - (j + 1)) = -(shoelaceTerm l j) := by
    intro j hj
    unfold shoelaceTerm
    rw [hrlen, hlen]
    have e0 : m - (j + 1) + 1 = m - j := by omega
    have h1 : (m - (j + 1) + 1) % (m + 1) = m - j := by
      rw [e0]; exact Nat.mod_eq_of_lt (by omega)
    have h2 : (j + 1) % (m + 1) = j + 1 := Nat.mod_eq_of_lt (by omega)
    rw [h1, h2]
    rw [getP_reverse l (m - (j + 1)) (by omega), getP_reverse l (m - j) (by omega)]
    have e1 : l.length - 1 - (m - (j + 1)) = j + 1 := by omega
    have e2 : l.length - 1 - (m - j) = j := by omega
    rw [e1, e2]
    ring
  rw [hrlen, hlen]
  calc (∑ i in Finset.range (m + 1), shoelaceTerm l.reverse i)
      = ∑ j in Finset.range (m + 1), shoelaceTerm l.reverse (m - j) := by
        have := Finset.sum_range_reflect (fun i => shoelaceTerm l.reverse i) (m + 1)
        simpa using this.symm
    _ = (∑ j in Finset.range m, shoelaceTerm l.reverse (m - (j + 1)))
        + shoelaceTerm l.reverse (m - 0) := by
        exact Finset.sum_range_succ' (fun j => shoelaceTerm l.reverse (m - j)) m
    _ = (∑ j in Finset.range m, -(shoelaceTerm l j)) + -(shoelaceTerm l m) := by
        rw [Nat.sub_zero, key0]
        congr 1
        exact Finset.sum_congr rfl fun j hj => keyS j (Finset.mem_range.mp hj)
    _ = -((∑ j in Finset.range m, shoelaceTerm l j) + shoelaceTerm l m) := by
        rw [Finset.sum_neg_distrib]
        ring
    _ = -(∑ i in Finset.range (m + 1), shoelaceTerm l i) := by
        rw [Finset.sum_range_succ]

/-- Reversing the vertex list negates the signed polygon area. -/
theorem getPolygonSignedArea_reverse (l : List Point) :
    getPolygonSignedArea l.reverse = -getPolygonSignedArea l := by
  unfold getPolygonSignedArea
  rw [shoelace_sum_reverse]
  ring

/-- C8: finishing the lot drawing on a valid polygon stores isCustomShape with exactly
the drawn vertices (same count), and the stored list is the drawn list or its reversal,
chosen so its signed area is non-negative (counter-clockwise normalization). -/
theorem c8_finished_polygon_ccw (cfg : LotConfig) (drawn : List Point)
    (h3 : 3 ≤ drawn.length) (hv : isLotShapeValid drawn = true) :
    (finishDrawingLot cfg drawn).isCustomShape = true ∧
    (finishDrawingLot cfg drawn).customShapePoints.length = drawn.length ∧
    ((finishDrawingLot cfg drawn).customShapePoints = drawn ∨
      (finishDrawingLot cfg drawn).customShapePoints = drawn.reverse) ∧
    0 ≤ getPolygonSignedArea (finishDrawingLot cfg drawn).customShapePoints := by
  have hcfg : finishDrawingLot cfg drawn =
      { isCustomShape := true, customShapePoints := ensureWindingOrder drawn,
        width := 0, depth := 0 } := by
    simp [finishDrawingLot, h3, hv]
  rw [hcfg]
  have hnl : ¬ drawn.length < 3 := by omega
  simp only []
  unfold ensureWindingOrder
  rw [if_neg hnl]
  by_cases ha : getPolygonSignedArea drawn < 0
  · rw [if_pos ha]
    refine ⟨by trivial, ?_, Or.inr rfl, ?_⟩
    · exact List.length_reverse drawn
    · rw [getPolygonSignedArea_reverse]
      linarith
  · rw [if_neg ha]
    exact ⟨by trivial, rfl, Or.inl rfl, by linarith [not_lt.mp ha]⟩

/-- Witness for C8: finishing a concrete clockwise 3-point triangle stores exactly 3
points (here the reversed list) with non-negative signed area. -/
theorem c8_finished_polygon_ccw_witness :
    (finishDrawingLot exampleLot [⟨0, 0⟩, ⟨0, 4⟩, ⟨4, 0⟩]).isCustomShape = true ∧
    (finishDrawingLot exampleLot [⟨0, 0⟩, ⟨0, 4⟩, ⟨4, 0⟩]).customShapePoints.length = 3 ∧
    ((finishDrawingLot exampleLot [⟨0, 0⟩, ⟨0, 4⟩, ⟨4, 0⟩]).customShapePoints
        = [⟨0, 0⟩, ⟨0, 4⟩, ⟨4, 0⟩] ∨
      (finishDrawingLot exampleLot [⟨0, 0⟩, ⟨0, 4⟩, ⟨4, 0⟩]).customShapePoints
        = List.reverse [⟨0, 0⟩, ⟨0, 4⟩, ⟨4, 0⟩]) ∧
    0 ≤ getPolygonSignedArea
        (finishDrawingLot exampleLot [⟨0, 0⟩, ⟨0, 4⟩, ⟨4, 0⟩]).customShapePoints := by
  have h := c8_finished_polygon_ccw exampleLot [⟨0, 0⟩, ⟨0, 4⟩, ⟨4, 0⟩] (by decide) ?_
  · exact h
  · norm_num [isLotShapeValid, segmentsIntersect, orientation, orientVal, onSegment, getP,
      List.range_succ]

/-- C9: the load handler errors exactly when the parsed file lacks a (truthy) version or
lacks all three of elements, customHouseData and lotConfiguration; and a parse failure
leaves the whole store state unchanged while showing a user-facing message. -/
theorem c9_load_minimal_validation (st : LoadedState) (df : DesignFile) :
    loadDesign none st = (st, some "Failed to load design") ∧
    (((df.elements = none ∧ df.customHouseData = none ∧ df.lotConfiguration = none) ∨
        df.version = none ∨ df.version = some "") →
      loadDesign (some df) st = (st, some "Invalid design file format.")) ∧
    (¬((df.elements = none ∧ df.customHouseData = none ∧ df.lotConfiguration = none) ∨
        df.version = none ∨ df.version = some "") →
      (loadDesign (some df) st).2 = none) := by
  refine ⟨rfl, fun h => ?_, fun h => ?_⟩
  · simp only [loadDesign, if_pos h]
  · simp only [loadDesign, if_neg h]

/-- Witness for C9: a parse failure and an all-empty file leave the concrete state
unchanged with the respective messages, and a minimal well-formed file loads cleanly. -/
theorem c9_load_minimal_validation_witness :
    loadDesign none exampleState = (exampleState, some "Failed to load design") ∧
    loadDesign (some ⟨none, none, none, none⟩) exampleState
      = (exampleState, some "Invalid design file format.") ∧
    (loadDesign (some ⟨some "1.4.0", none, none, some []⟩) exampleState).2 = none := by
  have h1 := c9_load_minimal_validation exampleState ⟨none, none, none, none⟩
  have h2 := c9_load_minimal_validation exampleState ⟨some "1.4.0", none, none, some []⟩
  exact ⟨h1.1, h1.2.1 (by simp), h2.2.2 (by simp)⟩

/-- Mapping the field-by-field element copy of saveDesign over a list is the identity. -/
theorem map_element_fields_id (els : List Element) :
    els.map (fun el =>
      ({ id := el.id, type := el.type, name := el.name, x := el.x, y := el.y, z := el.z,
         width := el.width, depth := el.depth, height := el.height, rotation := el.rotation,
         data := el.data } : Element)) = els := by
  have heta : (fun el =>
      ({ id := el.id, type := el.type, name := el.name, x := el.x, y := el.y, z := el.z,
         width := el.width, depth := el.depth, height := el.height, rotation := el.rotation,
         data := el.data } : Element)) = fun (el : Element) => el := rfl
  rw [heta, List.map_id']

/-- C1: saving a design with a custom house and loading the produced file reproduces the
element list exactly (same count, types and positions; exact rather than within
tolerance, since coordinates are rationals here), the lot configuration, and a custom
house with the same outline and wallHeight.  The wallHeight must be nonzero, as every
app path that writes it guarantees: a zero would be replaced by the legacy-height
fallback chain of the loader. -/
theorem c1_save_load_roundtrip (elements : List Element) (h : CustomHouse)
    (lotConfig : LotConfig) (st : LoadedState) (hwh : h.wallHeight ≠ 0) :
    ∃ df, saveDesign elements (some h) lotConfig = some df ∧
      (loadDesign (some df) st).2 = none ∧
      (loadDesign (some df) st).1.elements = elements ∧
      (loadDesign (some df) st).1.elements.length = elements.length ∧
      (loadDesign (some df) st).1.elements.map Element.type = elements.map Element.type ∧
      (loadDesign (some df) st).1.elements.map (fun e => (e.x, e.y))
        = elements.map (fun e => (e.x, e.y)) ∧
      (loadDesign (some df) st).1.lotConfig = lotConfig ∧
      ∃ h2, (loadDesign (some df) st).1.customHouse = some h2 ∧
        h2.outline = h.outline ∧ h2.wallHeight = h.wallHeight := by
  have hsave : saveDesign elements (some h) lotConfig = some
      { version := some "1.4.0", lotConfiguration := some lotConfig,
        customHouseData := some
          { id := h.id, type := h.type, name := h.name, x := h.x, y := h.y,
            width := h.width, depth := h.depth, rotation := h.rotation, outline := h.outline,
            wallHeight := some h.wallHeight, height := none,
            roofType := some h.roofType, wallColor := some h.wallColor },
        elements := some elements } := by
    rw [saveDesign, if_neg (by simp)]
    rw [Option.map_some']
    rw [map_element_fields_id]
  refine ⟨_, hsave, ?_⟩
  simp only [loadDesign, Option.map_some']
  rw [if_neg (by simp)]
  simp only [Option.getD_some, List.map_id]
  have hwh2 : jsOrQ (some h.wallHeight) (jsOrQ none DEFAULT_CUSTOM_HOUSE_WALL_HEIGHT)
      = h.wallHeight := by
    simp [jsOrQ, hwh]
  have hmapid2 : elements.map (fun elData => elData) = elements := List.map_id' elements
  refine ⟨by trivial, hmapid2, ?_, ?_, ?_, by trivial, ?_⟩
  · rw [hmapid2]
  · rw [hmapid2]
  · rw [hmapid2]
  · exact ⟨_, rfl, by trivial, hwh2⟩

/-- Witness for C1: round-tripping one tree and the concrete custom house through the
save file on the default lot. -/
theorem c1_save_load_roundtrip_witness :
    ∃ df, saveDesign [exampleTree] (some exampleCustomHouse) exampleLot = some df ∧
      (loadDesign (some df) exampleState).2 = none ∧
      (loadDesign (some df) exampleState).1.elements = [exampleTree] ∧
      (loadDesign (some df) exampleState).1.elements.length = [exampleTree].length ∧
      (loadDesign (some df) exampleState).1.elements.map Element.type
        = [exampleTree].map Element.type ∧
      (loadDesign (some df) exampleState).1.elements.map (fun e => (e.x, e.y))
        = [exampleTree].map (fun e => (e.x, e.y)) ∧
      (loadDesign (some df) exampleState).1.lotConfig = exampleLot ∧
      ∃ h2, (loadDesign (some df) exampleState).1.customHouse = some h2 ∧
        h2.outline = exampleCustomHouse.outline ∧
        h2.wallHeight = exampleCustomHouse.wallHeight :=
  c1_save_load_roundtrip [exampleTree] exampleCustomHouse exampleLot exampleState (by decide)

/-- C2: the custom-house mesh builder discriminates on roofType: a flat roof is a
coplanar cap over the outline at wall-top height, a gabled roof is a triangular-prism
extrusion whose extrusion length is the longer footprint axis (when no direction
override is present, as for every app-built custom house), and a hipped roof is a
hand-built vertex/index buffer that is a 4-triangle pyramid to a single apex on a
square footprint and a 6-triangle ridge roof with two distinct ridge vertices
otherwise; all three roof types produce a roof. -/
theorem c2_roof_discriminated_union (hd : HouseGeomData) (l : List Point)
    (hol : hd.outline = some l) (hne : l ≠ []) :
    (hd.roofType = "flat" → buildCustomHouseRoof hd = Roof.flatCap l hd.wallHeight) ∧
    (hd.roofType = "gabled" → hd.gableDirection = none →
      ∃ halfSpan peak alongX, buildCustomHouseRoof hd
        = Roof.gabledPrism halfSpan peak (max (bboxSpanX l) (bboxSpanY l)) alongX) ∧
    (hd.roofType = "hipped" →
      ∃ v i, buildCustomHouseRoof hd = Roof.hippedBuffer v i hd.wallHeight ∧
        (bboxSpanX l = bboxSpanY l →
          i = [0, 1, 4, 1, 2, 4, 2, 3, 4, 3, 0, 4] ∧ v.getD 4 default = v.getD 5 default) ∧
        (bboxSpanX l ≠ bboxSpanY l →
          i.length = 18 ∧ v.getD 4 default ≠ v.getD 5 default)) ∧
    ((hd.roofType = "flat" ∨ hd.roofType = "gabled" ∨ hd.roofType = "hipped") →
      buildCustomHouseRoof hd ≠ Roof.noRoof) := by
  have hbase : roofBaseOutlineOf hd = l := by rw [roofBaseOutlineOf, hol]
  have hlen : 0 < l.length := List.length_pos.mpr hne
  refine ⟨fun hf => ?_, fun hg hdir => ?_, fun hh => ?_, fun ho => ?_⟩
  · simp [buildCustomHouseRoof, hbase, hf, hlen]
  · by_cases hcmp : bboxSpanY l ≤ bboxSpanX l
    · refine ⟨bboxSpanY l / 2,
        jsOrQ hd.roofPeakHeightRatio (3 / 10) * min (bboxSpanX l) (bboxSpanY l), true, ?_⟩
      rw [max_eq_left hcmp]
      simp [buildCustomHouseRoof, hbase, hg, hlen, hdir, jsFalsyStr, hcmp]
    · refine ⟨bboxSpanX l / 2,
        jsOrQ hd.roofPeakHeightRatio (3 / 10) * min (bboxSpanX l) (bboxSpanY l), false, ?_⟩
      rw [max_eq_right (le_of_not_le hcmp)]
      simp [buildCustomHouseRoof, hbase, hg, hlen, hdir, jsFalsyStr, hcmp]
  · rcases lt_trichotomy (bboxSpanX l) (bboxSpanY l) with hlt | heq | hgt
    · have hroof : buildCustomHouseRoof hd = Roof.hippedBuffer
          [(-(bboxSpanX l / 2), 0, -(bboxSpanY l / 2)), (bboxSpanX l / 2, 0, -(bboxSpanY l / 2)),
            (bboxSpanX l / 2, 0, bboxSpanY l / 2), (-(bboxSpanX l / 2), 0, bboxSpanY l / 2),
            (0, jsOrQ hd.hipRoofPeakHeightRatio (3 / 10) * min (bboxSpanX l) (bboxSpanY l),
              -(bboxSpanY l / 2 - bboxSpanX l / 2)),
            (0, jsOrQ hd.hipRoofPeakHeightRatio (3 / 10) * min (bboxSpanX l) (bboxSpanY l),
              bboxSpanY l / 2 - bboxSpanX l / 2)]
          [0, 1, 4, 3, 2, 5, 0, 4, 5, 0, 5, 3, 1, 2, 5, 1, 5, 4] hd.wallHeight := by
        simp [buildCustomHouseRoof, hbase, hh, hlen, hlt, not_lt_of_lt hlt]
      refine ⟨_, _, hroof, fun heq2 => absurd heq2 (ne_of_lt hlt), fun hne2 => ⟨rfl, ?_⟩⟩
      simp only [List.getD_cons_succ, List.getD_cons_zero, ne_eq, Prod.mk.injEq, not_and]
      intro h1 h2
      linarith
    · have hroof : buildCustomHouseRoof hd = Roof.hippedBuffer
          [(-(bboxSpanX l / 2), 0, -(bboxSpanY l / 2)), (bboxSpanX l / 2, 0, -(bboxSpanY l / 2)),
            (bboxSpanX l / 2, 0, bboxSpanY l / 2), (-(bboxSpanX l / 2), 0, bboxSpanY l / 2),
            (0, jsOrQ hd.hipRoofPeakHeightRatio (3 / 10) * min (bboxSpanX l) (bboxSpanY l), 0),
            (0, jsOrQ hd.hipRoofPeakHeightRatio (3 / 10) * min (bboxSpanX l) (bboxSpanY l), 0)]
          [0, 1, 4, 1, 2, 4, 2, 3, 4, 3, 0, 4] hd.wallHeight := by
        simp [buildCustomHouseRoof, hbase, hh, hlen, heq, lt_irrefl]
      exact ⟨_, _, hroof, fun _ => ⟨rfl, rfl⟩, fun hne2 => absurd heq hne2⟩
    · have hroof : buildCustomHouseRoof hd = Roof.hippedBuffer
          [(-(bboxSpanX l / 2), 0, -(bboxSpanY l / 2)), (bboxSpanX l / 2, 0, -(bboxSpanY l / 2)),
            (bboxSpanX l / 2, 0, bboxSpanY l / 2), (-(bboxSpanX l / 2), 0, bboxSpanY l / 2),
            (-(bboxSpanX l / 2 - bboxSpanY l / 2),
              jsOrQ hd.hipRoofPeakHeightRatio (3 / 10) * min (bboxSpanX l) (bboxSpanY l), 0),
            (bboxSpanX l / 2 - bboxSpanY l / 2,
              jsOrQ hd.hipRoofPeakHeightRatio (3 / 10) * min (bboxSpanX l) (bboxSpanY l), 0)]
          [0, 1, 5, 0, 5, 4, 3, 4, 5, 3, 5, 2, 0, 4, 3, 1, 2, 5] hd.wallHeight := by
        simp [buildCustomHouseRoof, hbase, hh, hlen, hgt, not_lt_of_lt hgt]
      refine ⟨_, _, hroof, fun heq2 => absurd heq2 (ne_of_gt hgt), fun hne2 => ⟨rfl, ?_⟩⟩
      simp only [List.getD_cons_succ, List.getD_cons_zero, ne_eq, Prod.mk.injEq, not_and]
      intro h1
      linarith
  · rcases ho with hf | hg | hh
    · simp [buildCustomHouseRoof, hbase, hf, hlen]
    · have hex : ∃ a b c d, buildCustomHouseRoof hd = Roof.gabledPrism a b c d := by
        simp only [buildCustomHouseRoof, hbase, hg]
        rw [if_neg (by simp), if_pos (by simp [hlen])]
        split
        · exact ⟨_, _, _, _, rfl⟩
        · exact ⟨_, _, _, _, rfl⟩
      obtain ⟨a, b, c, d, heqr⟩ := hex
      rw [heqr]
      simp
    · have hex : ∃ v i e, buildCustomHouseRoof hd = Roof.hippedBuffer v i e := by
        simp only [buildCustomHouseRoof, hbase, hh]
        rw [if_neg (by simp), if_neg (by simp), if_pos (by simp [hlen])]
        exact ⟨_, _, _, rfl⟩
      obtain ⟨v, i, e, heqr⟩ := hex
      rw [heqr]
      simp

/-- Witness for C2: the three roof types on a concrete 20 by 10 custom house produce,
respectively, the flat cap, a prism extruded along the longer axis, and a ridge roof;
hipped produces a roof. -/
theorem c2_roof_discriminated_union_witness :
    buildCustomHouseRoof (exampleHouseGeom ("flat"))
      = Roof.flatCap exampleOutlineRect (exampleHouseGeom ("flat")).wallHeight ∧
    (∃ halfSpan peak alongX, buildCustomHouseRoof (exampleHouseGeom ("gabled"))
      = Roof.gabledPrism halfSpan peak
          (max (bboxSpanX exampleOutlineRect) (bboxSpanY exampleOutlineRect)) alongX) ∧
    (∃ v i, buildCustomHouseRoof (exampleHouseGeom ("hipped"))
      = Roof.hippedBuffer v i (exampleHouseGeom ("hipped")).wallHeight ∧
      (bboxSpanX exampleOutlineRect = bboxSpanY exampleOutlineRect →
        i = [0, 1, 4, 1, 2, 4, 2, 3, 4, 3, 0, 4] ∧ v.getD 4 default = v.getD 5 default) ∧
      (bboxSpanX exampleOutlineRect ≠ bboxSpanY exampleOutlineRect →
        i.length = 18 ∧ v.getD 4 default ≠ v.getD 5 default)) ∧
    buildCustomHouseRoof (exampleHouseGeom ("hipped")) ≠ Roof.noRoof := by
  have hf := c2_roof_discriminated_union (exampleHouseGeom ("flat")) exampleOutlineRect rfl
    (by simp [exampleOutlineRect])
  have hg := c2_roof_discriminated_union (exampleHouseGeom ("gabled")) exampleOutlineRect rfl
    (by simp [exampleOutlineRect])
  have hh := c2_roof_discriminated_union (exampleHouseGeom ("hipped")) exampleOutlineRect rfl
    (by simp [exampleOutlineRect])
  exact ⟨hf.1 rfl, hg.2.1 rfl rfl, hh.2.2.1 rfl, hh.2.2.2 (Or.inr (Or.inr rfl))⟩

end Verdant
